import Mathlib

/-!
Verification development for the semantic-analysis and lowering layer in
`python/triton/language/semantic.py`.

The Lean definitions below are a shallow embedding of that file.  The scalar
type model (`core.dtype` / `core.block_type` / `core.block` from the missing
`core.py`) and the IR builder (`triton._C.libtriton.triton.ir`) are not part
of the provided sources, so they are modelled from the specification: a value
is an opaque handle paired with its static block type, and the builder is a
trace of emitted IR instructions.  Every lowering function is translated
directly from `semantic.py`, including its quirks (stale local variables,
references to undefined Python names, result-type annotations chosen by the
source).  Python exceptions are modelled by the `Err` type; a reference to an
undefined Python name (a `NameError` at run time) is modelled by a dedicated
error constructor, raised before the call's arguments are evaluated, mirroring
CPython's evaluation order for a call whose callee name does not resolve.
-/

namespace TritonSem

/-- Signedness of an integer scalar kind (`core.dtype.SIGNEDNESS`). -/
inductive Signedness where
  | signed
  | unsigned
deriving DecidableEq

/-- Modelled from the spec: the closed set of scalar kinds (`core.dtype`,
`core.py` is not among the provided sources).  `Bool` is the 1-bit integer
kind `int1`, as in the source's uses of `core.int1`; pointers carry a pointee
kind and an address space. -/
inductive dtype where
  | intTy (width : Nat) (sn : Signedness)
  | fp16
  | bf16
  | fp32
  | fp64
  | ptrTy (pointee : dtype) (addrSpace : Nat)
deriving DecidableEq

namespace dtype

/-- `core.int1`, the boolean kind. -/
def int1 : dtype := .intTy 1 .signed

def int8 : dtype := .intTy 8 .signed

def int16 : dtype := .intTy 16 .signed

def int32 : dtype := .intTy 32 .signed

def int64 : dtype := .intTy 64 .signed

def uint8 : dtype := .intTy 8 .unsigned

def uint16 : dtype := .intTy 16 .unsigned

def uint32 : dtype := .intTy 32 .unsigned

def uint64 : dtype := .intTy 64 .unsigned

/-- Modelled from the spec: `dtype.is_int` — true for every integer kind,
including the boolean kind `int1`. -/
def is_int : dtype → Bool
  | .intTy _ _ => true
  | _ => false

def is_bool : dtype → Bool
  | .intTy 1 _ => true
  | _ => false

def is_fp16 : dtype → Bool
  | .fp16 => true
  | _ => false

def is_bf16 : dtype → Bool
  | .bf16 => true
  | _ => false

def is_fp32 : dtype → Bool
  | .fp32 => true
  | _ => false

def is_fp64 : dtype → Bool
  | .fp64 => true
  | _ => false

def is_floating : dtype → Bool
  | .fp16 | .bf16 | .fp32 | .fp64 => true
  | _ => false

def is_ptr : dtype → Bool
  | .ptrTy _ _ => true
  | _ => false

/-- Modelled from the spec: integer bit width; only consulted on integer
kinds. -/
def int_bitwidth : dtype → Nat
  | .intTy w _ => w
  | _ => 0

/-- Modelled from the spec: integer signedness; only consulted on integer
kinds. -/
def int_signedness : dtype → Signedness
  | .intTy _ sn => sn
  | _ => .signed

def is_int_signed : dtype → Bool
  | .intTy _ .signed => true
  | _ => false

/-- Modelled from the spec: mantissa width, used only to rank float precision
as fp16 < bf16 < fp32 < fp64 (the spec ranks bf16 between fp16 and fp32). -/
def get_fp_mantissa_width : dtype → Nat
  | .fp16 => 10
  | .bf16 => 16
  | .fp32 => 23
  | .fp64 => 52
  | _ => 0

/-- Modelled from the spec: raw storage width in bits. -/
def primitive_bitwidth : dtype → Nat
  | .intTy w _ => w
  | .fp16 | .bf16 => 16
  | .fp32 => 32
  | .fp64 => 64
  | .ptrTy _ _ => 64

/-- Pointee kind of a pointer (`dtype.element`); only consulted on pointer
kinds. -/
def element : dtype → dtype
  | .ptrTy p _ => p
  | t => t

/-- Address space of a pointer; only consulted on pointer kinds. -/
def address_space : dtype → Nat
  | .ptrTy _ a => a
  | _ => 0

end dtype

/-- `core.pointer_type`. -/
def pointer_type (pointee : dtype) (addrSpace : Nat) : dtype :=
  .ptrTy pointee addrSpace

/-- Modelled from the spec: a block type is an element kind plus an ordered
shape; a scalar type is a block type with empty shape (rank 0), so
`core.dtype` and `core.block_type` are represented uniformly. -/
structure block_type where
  scalar : dtype
  shape : List Nat
deriving DecidableEq

/-- Rank > 0 (`type.is_block()`). -/
def block_type.is_block (t : block_type) : Bool :=
  !t.shape.isEmpty

def block_type.is_boolTy (t : block_type) : Bool :=
  t.scalar.is_bool

/-- Number of elements of a shape. -/
def numel (shape : List Nat) : Nat :=
  shape.foldl (fun a s => a * s) 1

/-- Modelled from the spec: a scalar runtime value carried by an IR handle.
Floating values are modelled as rationals, which is exact for the sign
comparisons against zero performed by the lowering layer. -/
inductive sval where
  | i (n : Int)
  | b (v : Bool)
  | f (q : Rat)
  | p (addr : Int)
  | unk
deriving DecidableEq

/-- Modelled from the spec: a value is an opaque IR handle paired with its
static block type (`core.block`).  The handle is modelled by the semantic
payload of the instruction that produced it. -/
structure blk where
  data : List sval
  type : block_type
deriving DecidableEq

/-- Python exceptions raised by `semantic.py`, as structured constructors.
`incompatibleType` is `IncompatibleTypeErrorimpl`; `differentSignedness`,
`modDifferentSignedness`, `rankMismatch`, `incompatibleDims`,
`cannotBroadcast`, `notPointer`, `otherWithoutMask`,
`unsupportedCacheModifier`, `unsupportedEvictionPolicy` and
`bitcastSizeMismatch` are the `ValueError` raises, carrying the data that the
source interpolates into the message; `undefinedNameCase` and
`undefinedNameOtherIt` are the `NameError`s for the undefined names `case`
(line 526) and `other_it` (line 666); `assertionError` is `assert False`. -/
inductive Err where
  | incompatibleType (a b : dtype)
  | differentSignedness (a b : dtype)
  | modDifferentSignedness (a b : dtype)
  | rankMismatch
  | incompatibleDims (idx left right : Nat)
  | cannotBroadcast
  | notPointer (t : block_type)
  | otherWithoutMask
  | unsupportedCacheModifier (s : String)
  | unsupportedEvictionPolicy (s : String)
  | bitcastSizeMismatch (src dst : Nat)
  | xorSumOnNonInt
  | undefinedNameCase
  | undefinedNameOtherIt
  | assertionError
  | outOfFuel
deriving DecidableEq

/-- Constructor tag of an error, ignoring the interpolated payload.  Two
errors with the same tag are raises of the same exception class from the same
site; their messages can differ only in the interpolated operand order. -/
def Err.tag : Err → Nat
  | .incompatibleType _ _ => 0
  | .differentSignedness _ _ => 1
  | .modDifferentSignedness _ _ => 2
  | .rankMismatch => 3
  | .incompatibleDims _ _ _ => 4
  | .cannotBroadcast => 5
  | .notPointer _ => 6
  | .otherWithoutMask => 7
  | .unsupportedCacheModifier _ => 8
  | .unsupportedEvictionPolicy _ => 9
  | .bitcastSizeMismatch _ _ => 10
  | .xorSumOnNonInt => 11
  | .undefinedNameCase => 12
  | .undefinedNameOtherIt => 13
  | .assertionError => 14
  | .outOfFuel => 15

/-- `integer_promote_impl` (semantic.py lines 30-44). -/
def integer_promote_impl (a_ty b_ty : dtype) : dtype :=
  let a_rank := a_ty.int_bitwidth
  let b_rank := b_ty.int_bitwidth
  let a_sn := a_ty.int_signedness
  let b_sn := b_ty.int_signedness
  if a_sn = b_sn then
    if a_rank > b_rank then a_ty else b_ty
  else if a_sn = Signedness.unsigned then
    if a_rank ≥ b_rank then a_ty else b_ty
  else if b_sn = Signedness.unsigned then
    if b_rank ≥ a_rank then b_ty else a_ty
  else
    -- `assert False`: unreachable, signedness has exactly two values
    a_ty

/-- `computation_type_impl` (semantic.py lines 47-70).  The mixed-signedness
divide/modulo failure is a `ValueError` in the source. -/
def computation_type_impl (a_ty b_ty : dtype) (div_or_mod : Bool) :
    Except Err dtype :=
  if a_ty.is_fp64 || b_ty.is_fp64 then .ok .fp64
  else if a_ty.is_fp32 || b_ty.is_fp32 then .ok .fp32
  else if a_ty.is_fp16 || b_ty.is_fp16 then
    if div_or_mod then .ok .fp32 else .ok .fp16
  else if !a_ty.is_int || !b_ty.is_int then .error .assertionError
  else if div_or_mod && !(a_ty.int_signedness = b_ty.int_signedness : Bool) then
    .error (.differentSignedness a_ty b_ty)
  else
    .ok (integer_promote_impl a_ty b_ty)

/-- `check_ptr_type_impl` (semantic.py lines 76-85). -/
def check_ptr_type_impl (type_a type_b : dtype) (allow_ptr_a : Bool) :
    Except Err Unit :=
  if type_a.is_ptr then
    if !allow_ptr_a then .error (.incompatibleType type_a type_b)
    else if type_b.is_ptr && !(type_a = type_b : Bool) then
      .error (.incompatibleType type_a type_b)
    else if type_b.is_floating then .error (.incompatibleType type_a type_b)
    else .ok ()
  else .ok ()

/-- Outcome equivalence used to compare two runs of `computation_type_impl`:
equal result kinds, or failures of the same kind. -/
def sameOutcome (x y : Except Err dtype) : Prop :=
  match x, y with
  | .ok t, .ok u => t = u
  | .error e, .error e' => e.tag = e'.tag
  | _, _ => False

/-- Atomic read-modify-write opcodes (`ir.ATOMIC_OP`). -/
inductive AtomicOp where
  | MAX
  | UMAX
  | MIN
  | UMIN
  | ADD
  | FADD
  | AND
  | OR
  | XOR
  | XCHG
deriving DecidableEq

/-- Reduction opcodes (`ir.REDUCE_OP`). -/
inductive ReduceOp where
  | FMIN
  | FMAX
  | FADD
  | MIN
  | MAX
  | ADD
  | XOR
deriving DecidableEq

/-- Modelled from the spec: one IR instruction appended by a
`builder.create_*` call, tagged with the payload the claims inspect (operand
types of a float divide, the concrete mask of an atomic RMW, the input type
of a reduce, the condition of a select, the target type of a cast). -/
inductive Instr where
  | splatI (shape : List Nat)
  | broadcastI (shape : List Nat)
  | gepI
  | iaddI
  | faddI
  | fdivI (lty rty : block_type)
  | fremI
  | sremI
  | uremI
  | andI
  | orI
  | xorI
  | fcmpOGEI
  | fcmpOLTI
  | fcmpUNEI
  | icmpSGEI
  | icmpUGEI
  | icmpSLTI
  | icmpULTI
  | icmpNEI
  | fpTruncI (dst : block_type)
  | fpExtI (dst : block_type)
  | intCastI (dst : block_type) (sign_extend : Bool)
  | fpToSiI (dst : block_type)
  | fpToUiI (dst : block_type)
  | siToFpI (dst : block_type)
  | uiToFpI (dst : block_type)
  | ptrToIntI (dst : block_type)
  | intToPtrI (dst : block_type)
  | bitcastI (dst : block_type)
  | selectI (cond : List sval)
  | loadI
  | maskedLoadI
  | atomicRMWI (op : AtomicOp) (mask : List sval)
  | reduceI (op : ReduceOp) (input : block_type) (axis : Nat)
deriving DecidableEq

/-- Modelled from the spec: a lowering call is a pure transformation of its
operands that appends instructions to the externally-owned builder and can
abort with a synchronous error. -/
abbrev M (α : Type) : Type :=
  StateT (List Instr) (Except Err) α

/-- Append one instruction to the builder trace. -/
def emit (ins : Instr) : M Unit :=
  fun tr => .ok ((), tr ++ [ins])

/-- Raise an exception, discarding the builder (the IR it owns is abandoned
together with the aborted lowering call). -/
def throwE {α : Type} (e : Err) : M α :=
  fun _ => .error e

/-- Lift a pure fallible computation into the builder monad. -/
def liftE {α : Type} : Except Err α → M α
  | .ok a => pure a
  | .error e => throwE e

/-- A block whose every element is undefined: the payload of an instruction
whose concrete value the lowering layer never inspects. -/
def undefData (shape : List Nat) : List sval :=
  List.replicate (numel shape) .unk

/-- Payload of `builder.create_splat`: the scalar operand's single element
replicated over the target shape. -/
def splatData (v : blk) (shape : List Nat) : List sval :=
  List.replicate (numel shape) (v.data.headD .unk)

/-- Elementwise ordered `≥` (`create_fcmpOGE`). -/
def sval.fge : sval → sval → sval
  | .f a, .f bv => .b (decide (bv ≤ a))
  | _, _ => .unk

/-- Elementwise ordered `<` (`create_fcmpOLT`). -/
def sval.flt : sval → sval → sval
  | .f a, .f bv => .b (decide (a < bv))
  | _, _ => .unk

/-- Elementwise bitwise and (`create_and`); only the boolean case is given a
concrete value, which is all the lowering layer inspects. -/
def sval.andv : sval → sval → sval
  | .b a, .b bv => .b (a && bv)
  | _, _ => .unk

/-- Inner per-axis loop of `broadcast_impl_value` (semantic.py lines
466-478), carrying the running axis index for the error message. -/
def ret_shape_loop : List Nat → List Nat → Nat → Except Err (List Nat)
  | [], _, _ => .ok []
  | left :: ls, right :: rs, i =>
    if left = 1 then (ret_shape_loop ls rs (i + 1)).map (fun t => right :: t)
    else if right = 1 then (ret_shape_loop ls rs (i + 1)).map (fun t => left :: t)
    else if left = right then
      (ret_shape_loop ls rs (i + 1)).map (fun t => left :: t)
    else .error (.incompatibleDims i left right)
  | _ :: _, [], _ => .error .rankMismatch

/-- Shape resolution of `broadcast_impl_value` (semantic.py lines 461-478):
the rank check followed by the per-axis loop. -/
def shape_compatible (lhs_shape rhs_shape : List Nat) : Except Err (List Nat) :=
  if lhs_shape.length ≠ rhs_shape.length then .error .rankMismatch
  else ret_shape_loop lhs_shape rhs_shape 0

/-- `broadcast_impl_shape` (semantic.py lines 434-444).  The raw
`create_splat` handle returned on the scalar path is modelled as a value of
the splatted block type. -/
def broadcast_impl_shape (input : blk) (shape : List Nat) : M blk := do
  if !input.type.is_block then
    emit (.splatI shape)
    return ⟨splatData input shape, ⟨input.type.scalar, shape⟩⟩
  else
    let src_shape := input.type.shape
    if src_shape.length ≠ shape.length then throwE .cannotBroadcast
    else if shape = src_shape then return input
    else do
      emit (.broadcastI shape)
      return ⟨undefData shape, ⟨input.type.scalar, shape⟩⟩

/-- `broadcast_impl_value` (semantic.py lines 446-486).  Note that on the
block/scalar paths the splatted operand is given the *other* operand's full
block type `ret_ty`, element kind included, exactly as in the source. -/
def broadcast_impl_value (lhs rhs : blk) : M (blk × blk) := do
  let lhs_ty := lhs.type
  let rhs_ty := rhs.type
  if lhs_ty.is_block && !rhs_ty.is_block then
    let ret_ty := lhs_ty
    emit (.splatI lhs_ty.shape)
    return (lhs, ⟨splatData rhs lhs_ty.shape, ret_ty⟩)
  else if !lhs_ty.is_block && rhs_ty.is_block then
    let ret_ty := rhs_ty
    emit (.splatI rhs_ty.shape)
    return (⟨splatData lhs rhs_ty.shape, ret_ty⟩, rhs)
  else if lhs_ty.is_block && rhs_ty.is_block then
    let lhs_shape := lhs_ty.shape
    let rhs_shape := rhs_ty.shape
    let ret_shape ← liftE (shape_compatible lhs_shape rhs_shape)
    let lhs ←
      if lhs_shape ≠ ret_shape then do
        emit (.broadcastI ret_shape)
        pure (⟨undefData ret_shape, ⟨lhs_ty.scalar, ret_shape⟩⟩ : blk)
      else pure lhs
    let rhs ←
      if rhs_shape ≠ ret_shape then do
        emit (.broadcastI ret_shape)
        pure (⟨undefData ret_shape, ⟨rhs_ty.scalar, ret_shape⟩⟩ : blk)
      else pure rhs
    return (lhs, rhs)
  else
    return (lhs, rhs)

mutual

/-- `cast` (semantic.py lines 512-602), with a fuel parameter bounding the
recursion through `not_equal`.  The branch ordering and fall-through are the
source's.  The bf16 branch (line 526) calls the undefined Python name `case`;
CPython resolves the callee name before evaluating the arguments, so the
branch raises `NameError` without emitting anything. -/
def castF : Nat → blk → dtype → M blk
  | 0, _, _ => throwE .outOfFuel
  | Nat.succ fuel, input0, dst_sca => do
    let src_ty := input0.type
    let dst_ty : block_type :=
      if src_ty.is_block then ⟨dst_sca, src_ty.shape⟩ else ⟨dst_sca, []⟩
    if src_ty = dst_ty then return input0
    else
      let src_sca_ty := src_ty.scalar
      let dst_sca_ty := dst_ty.scalar
      -- bf16 <=> (not fp32)
      if (src_sca_ty.is_bf16 && !dst_sca_ty.is_fp32) ||
          (dst_sca_ty.is_bf16 && !src_sca_ty.is_fp32) then
        throwE .undefinedNameCase
      -- FP truncation
      else if src_sca_ty.is_floating && dst_sca_ty.is_floating &&
          dst_sca_ty.get_fp_mantissa_width < src_sca_ty.get_fp_mantissa_width then do
        emit (.fpTruncI dst_ty)
        return ⟨undefData dst_ty.shape, dst_ty⟩
      -- FP extension
      else if src_sca_ty.is_floating && dst_sca_ty.is_floating &&
          src_sca_ty.get_fp_mantissa_width < dst_sca_ty.get_fp_mantissa_width then do
        emit (.fpExtI dst_ty)
        return ⟨undefData dst_ty.shape, dst_ty⟩
      -- int cast
      else if src_sca_ty.is_int && dst_sca_ty.is_int &&
          (!(src_sca_ty.int_bitwidth = dst_sca_ty.int_bitwidth : Bool) ||
            !(src_sca_ty.int_signedness = dst_sca_ty.int_signedness : Bool)) then do
        let sign_extend :=
          src_sca_ty.is_int_signed && !(src_sca_ty = dtype.int1 : Bool)
        emit (.intCastI dst_ty sign_extend)
        return ⟨undefData dst_ty.shape, dst_ty⟩
      -- float to int
      else if src_sca_ty.is_floating && dst_sca_ty.is_int then
        if dst_sca_ty.is_bool then do
          emit (.fpToUiI dst_ty)
          return ⟨undefData dst_ty.shape, dst_ty⟩
        else do
          emit (.fpToSiI dst_ty)
          return ⟨undefData dst_ty.shape, dst_ty⟩
      -- int to float
      else if src_sca_ty.is_int && dst_sca_ty.is_floating then
        if src_sca_ty.is_bool || !src_sca_ty.is_int_signed then do
          emit (.uiToFpI dst_ty)
          return ⟨undefData dst_ty.shape, dst_ty⟩
        else do
          emit (.siToFpI dst_ty)
          return ⟨undefData dst_ty.shape, dst_ty⟩
      -- ptr to int, width 64
      else if src_sca_ty.is_ptr && dst_sca_ty.is_int &&
          (dst_sca_ty.int_bitwidth = 64 : Bool) then do
        emit (.ptrToIntI dst_ty)
        return ⟨undefData dst_ty.shape, dst_ty⟩
      -- ptr to int, width 1: null check through int64
      else if src_sca_ty.is_ptr && dst_sca_ty.is_int &&
          (dst_sca_ty.int_bitwidth = 1 : Bool) then do
        let inner ← castF fuel input0 dtype.int64
        not_equalF fuel inner ⟨[sval.i 0], ⟨dtype.int64, []⟩⟩
      -- anything that is not a pointer, to pointer
      else if !src_sca_ty.is_ptr && dst_sca_ty.is_ptr then do
        emit (.intToPtrI dst_ty)
        return ⟨undefData dst_ty.shape, dst_ty⟩
      -- ptr to ptr
      else if src_sca_ty.is_ptr && dst_sca_ty.is_ptr then do
        emit (.bitcastI dst_ty)
        return ⟨undefData dst_ty.shape, dst_ty⟩
      -- anything else to bool: compare against zero
      else if dst_sca_ty.is_bool then do
        let input1 ←
          if src_sca_ty.is_ptr then castF fuel input0 dtype.int64
          else pure input0
        let _ := input1
        if src_ty.is_boolTy && src_ty.is_block then emit (.splatI src_ty.shape)
        emit .icmpNEI
        return ⟨undefData dst_ty.shape, dst_ty⟩
      else throwE .assertionError

/-- `not_equal` (semantic.py lines 390-401).  Note the source wraps both
comparison results with `input.type`, the operand type. -/
def not_equalF : Nat → blk → blk → M blk
  | 0, _, _ => throwE .outOfFuel
  | Nat.succ fuel, input, other => do
    let (input, other) ← binaryF fuel input other false false true false
    let _ := other
    let scalar_ty := input.type.scalar
    if scalar_ty.is_floating then do
      emit .fcmpUNEI
      return ⟨undefData input.type.shape, input.type⟩
    else if scalar_ty.is_int then do
      emit .icmpNEI
      return ⟨undefData input.type.shape, input.type⟩
    else throwE .assertionError

/-- `binary_op_type_checking_impl` (semantic.py lines 87-104). -/
def binaryF : Nat → blk → blk → Bool → Bool → Bool → Bool → M (blk × blk)
  | 0, _, _, _, _, _, _ => throwE .outOfFuel
  | Nat.succ fuel, lhs, rhs, allow_lhs_ptr, allow_rhs_ptr,
      arithmetic_check, div_or_mod => do
    let (lhs, rhs) ← broadcast_impl_value lhs rhs
    let lhs_sca_ty := lhs.type.scalar
    let rhs_sca_ty := rhs.type.scalar
    liftE (check_ptr_type_impl lhs_sca_ty rhs_sca_ty allow_lhs_ptr)
    liftE (check_ptr_type_impl rhs_sca_ty lhs_sca_ty allow_rhs_ptr)
    if arithmetic_check && !lhs_sca_ty.is_ptr && !rhs_sca_ty.is_ptr then do
      let ret_sca_ty ← liftE (computation_type_impl lhs_sca_ty rhs_sca_ty div_or_mod)
      let lhs ← castF fuel lhs ret_sca_ty
      let rhs ← castF fuel rhs ret_sca_ty
      return (lhs, rhs)
    else
      return (lhs, rhs)

end

/-- `cast` at a fuel bound far above the recursion depth any input reaches
(the only recursion is pointer-to-int1 going through `not_equal` once). -/
def cast (input : blk) (dst_ty : dtype) : M blk :=
  castF 100 input dst_ty

/-- `not_equal` at the standard fuel bound. -/
def not_equal (input other : blk) : M blk :=
  not_equalF 100 input other

/-- `binary_op_type_checking_impl` at the standard fuel bound. -/
def binary_op_type_checking_impl (lhs rhs : blk)
    (allow_lhs_ptr allow_rhs_ptr arithmetic_check div_or_mod : Bool) :
    M (blk × blk) :=
  binaryF 100 lhs rhs allow_lhs_ptr allow_rhs_ptr arithmetic_check div_or_mod

/-- `add` (semantic.py lines 107-125).  The locals `input_scalar_ty` and
`other_scalar_ty` are read from the *pre-swap* operands, exactly as in the
source, so after the offset+pointer swap the dispatch still sees the offset's
scalar type and emits an integer add on the pointer operand; the result type
`input.type` is read post-swap and is the pointer type. -/
def add (input other : blk) : M blk := do
  let (input, other) ← binary_op_type_checking_impl input other true true true false
  let input_scalar_ty := input.type.scalar
  let other_scalar_ty := other.type.scalar
  -- offset + ptr / ptr + offset: put the pointer on the left
  let (input, other) :=
    if other_scalar_ty.is_ptr && !input_scalar_ty.is_ptr then (other, input)
    else (input, other)
  let _ := other
  if input_scalar_ty.is_ptr then do
    emit .gepI
    return ⟨undefData input.type.shape, input.type⟩
  else if input_scalar_ty.is_floating then do
    emit .faddI
    return ⟨undefData input.type.shape, input.type⟩
  else if input_scalar_ty.is_int then do
    emit .iaddI
    return ⟨undefData input.type.shape, input.type⟩
  else throwE .assertionError

/-- `truediv` (semantic.py lines 157-182). -/
def truediv (input other : blk) : M blk := do
  let (input, other) ← binary_op_type_checking_impl input other false false true true
  let input_scalar_ty := input.type.scalar
  let other_scalar_ty := other.type.scalar
  let (input, other) ←
    -- float / int
    if input_scalar_ty.is_floating && other_scalar_ty.is_int then do
      let other ← cast other input_scalar_ty
      pure (input, other)
    -- int / float
    else if input_scalar_ty.is_int && other_scalar_ty.is_floating then do
      let input ← cast input other_scalar_ty
      pure (input, other)
    -- int / int (cast to float32)
    else if input_scalar_ty.is_int && other_scalar_ty.is_int then do
      let input ← cast input dtype.fp32
      let other ← cast other dtype.fp32
      pure (input, other)
    -- float / float (cast to the higher-precision type)
    else if input_scalar_ty.is_floating && other_scalar_ty.is_floating then
      if other_scalar_ty.get_fp_mantissa_width < input_scalar_ty.get_fp_mantissa_width then do
        let other ← cast other input_scalar_ty
        pure (input, other)
      else do
        let input ← cast input other_scalar_ty
        pure (input, other)
    else throwE .assertionError
  emit (.fdivI input.type other.type)
  return ⟨undefData input.type.shape, input.type⟩

/-- `mod` (semantic.py lines 213-232).  The signedness check compares the
scalar types *after* `binary_op_type_checking_impl` has cast both operands to
the computation type. -/
def mod (input other : blk) : M blk := do
  let (input, other) ← binary_op_type_checking_impl input other false false true true
  let scalar_ty := input.type.scalar
  let other_scalar_ty := other.type.scalar
  -- float % float
  if scalar_ty.is_floating then do
    emit .fremI
    return ⟨undefData input.type.shape, input.type⟩
  -- % int
  else if scalar_ty.is_int then
    if !(scalar_ty.int_signedness = other_scalar_ty.int_signedness : Bool) then
      throwE (.modDifferentSignedness scalar_ty other_scalar_ty)
    else if scalar_ty.is_int_signed then do
      emit .sremI
      return ⟨undefData input.type.shape, input.type⟩
    else do
      emit .uremI
      return ⟨undefData input.type.shape, input.type⟩
  else throwE .assertionError

/-- `bitwise_op_type_checking_impl` (semantic.py lines 237-250). -/
def bitwise_op_type_checking_impl (input other : blk) : M (blk × blk) := do
  let (input, other) ← binary_op_type_checking_impl input other false false false false
  let input_sca_ty := input.type.scalar
  let other_sca_ty := other.type.scalar
  if !input_sca_ty.is_int || !other_sca_ty.is_int then
    throwE (.incompatibleType input_sca_ty other_sca_ty)
  else
    let ret_sca_ty := integer_promote_impl input_sca_ty other_sca_ty
    let input ←
      if ret_sca_ty ≠ input_sca_ty then cast input ret_sca_ty else pure input
    let other ←
      if ret_sca_ty ≠ other_sca_ty then cast other ret_sca_ty else pure other
    return (input, other)

/-- `and_` (semantic.py lines 252-256). -/
def and_ (input other : blk) : M blk := do
  let (input, other) ← bitwise_op_type_checking_impl input other
  emit .andI
  return ⟨List.zipWith sval.andv input.data other.data, input.type⟩

/-- `greater_equal` (semantic.py lines 329-343).  The source returns the raw
builder handle without a `core.block` wrap; that handle is modelled as a
value of the boolean-element comparison type the IR gives it. -/
def greater_equal (input other : blk) : M blk := do
  let (input, other) ← binary_op_type_checking_impl input other false false true false
  let scalar_ty := input.type.scalar
  if scalar_ty.is_floating then do
    emit .fcmpOGEI
    return ⟨List.zipWith sval.fge input.data other.data, ⟨dtype.int1, input.type.shape⟩⟩
  else if scalar_ty.is_int then
    if scalar_ty.is_int_signed then do
      emit .icmpSGEI
      return ⟨undefData input.type.shape, ⟨dtype.int1, input.type.shape⟩⟩
    else do
      emit .icmpUGEI
      return ⟨undefData input.type.shape, ⟨dtype.int1, input.type.shape⟩⟩
  else throwE .assertionError

/-- `less_than` (semantic.py lines 345-359).  Unlike `greater_equal`, the
source wraps the comparison handle in `core.block(..., input.type)`: the
result is annotated with the *operand's* type, float kinds included. -/
def less_than (input other : blk) : M blk := do
  let (input, other) ← binary_op_type_checking_impl input other false false true false
  let scalar_ty := input.type.scalar
  if scalar_ty.is_floating then do
    emit .fcmpOLTI
    return ⟨List.zipWith sval.flt input.data other.data, input.type⟩
  else if scalar_ty.is_int then
    if scalar_ty.is_int_signed then do
      emit .icmpSLTI
      return ⟨undefData input.type.shape, input.type⟩
    else do
      emit .icmpULTI
      return ⟨undefData input.type.shape, input.type⟩
  else throwE .assertionError

/-- `bitcast` (semantic.py lines 491-510); pointer-involving bitcasts
delegate to `cast`. -/
def bitcast (input : blk) (dst_sca : dtype) : M blk := do
  let src_ty := input.type
  let dst_ty : block_type :=
    if src_ty.is_block then ⟨dst_sca, src_ty.shape⟩ else ⟨dst_sca, []⟩
  if src_ty = dst_ty then return input
  else
    let src_sca_ty := src_ty.scalar
    let dst_sca_ty := dst_ty.scalar
    if src_sca_ty.is_ptr || dst_sca_ty.is_ptr then cast input dst_sca
    else
      let src_bits := src_sca_ty.primitive_bitwidth
      let dst_bits := dst_sca_ty.primitive_bitwidth
      if src_bits ≠ dst_bits then throwE (.bitcastSizeMismatch src_bits dst_bits)
      else do
        emit (.bitcastI dst_ty)
        return ⟨undefData dst_ty.shape, dst_ty⟩

/-- `where` (semantic.py lines 862-876), named `where_` because `where` is a
Lean keyword.  The source annotates the select result with the scalar
computation type `ty`. -/
def where_ (condition x y : blk) : M blk := do
  let condition ← cast condition dtype.int1
  let (x, y) ←
    if condition.type.is_block then do
      let x ← broadcast_impl_shape x condition.type.shape
      let y ← broadcast_impl_shape y condition.type.shape
      pure (x, y)
    else pure (x, y)
  let x_ty := x.type.scalar
  let y_ty := y.type.scalar
  let ty ← liftE (computation_type_impl x_ty y_ty false)
  let x ← cast x ty
  let y ← cast y ty
  let _ := x
  let _ := y
  emit (.selectI condition.data)
  return ⟨undefData condition.type.shape, ⟨ty, []⟩⟩

/-- `load` (semantic.py lines 608-672).  On the mask-without-fill path the
source builds the default fill handle `other_ir` (splatting it over block
pointers) but then wraps the undefined name `other_it` (line 666), so that
path raises `NameError` instead of reaching the masked load. -/
def load (ptr : blk) (mask other : Option blk)
    (cache_modifier eviction_policy : Option String) (is_volatile : Bool) :
    M blk := do
  let _ := is_volatile
  if !ptr.type.scalar.is_ptr then throwE (.notPointer ptr.type)
  let mask ←
    match mask, ptr.type.is_block with
    | some m, true => do
      let m ← broadcast_impl_shape m ptr.type.shape
      pure (some m)
    | m, _ => pure m
  let other ←
    match other, ptr.type.is_block with
    | some o, true => do
      let o ← broadcast_impl_shape o ptr.type.shape
      pure (some o)
    | o, _ => pure o
  let other ←
    match other with
    | some o => do
      let o ← cast o ptr.type.scalar.element
      pure (some o)
    | none => pure none
  let ptr_ty := ptr.type.scalar
  let elt_ty := ptr_ty.element
  -- treat bool* as int8*
  let (elt_ty, ptr) ←
    if elt_ty = dtype.int1 then do
      let elt_ty := dtype.int8
      let ptr_ty := pointer_type elt_ty ptr_ty.address_space
      let ptr ← cast ptr ptr_ty
      pure (elt_ty, ptr)
    else pure (elt_ty, ptr)
  -- cache modifier
  match cache_modifier with
  | none => pure ()
  | some cm =>
    if cm == ".ca" then pure ()
    else if cm == ".cg" then pure ()
    else throwE (.unsupportedCacheModifier cm)
  -- eviction policy
  match eviction_policy with
  | none => pure ()
  | some ep =>
    if ep == "evict_last" then pure ()
    else if ep == "evict_first" then pure ()
    else throwE (.unsupportedEvictionPolicy ep)
  if !ptr.type.is_block then throwE .assertionError
  let shape := ptr.type.shape
  let dst_ty : block_type := ⟨elt_ty, shape⟩
  match mask, other with
  | none, none => do
    emit .loadI
    return ⟨undefData shape, dst_ty⟩
  | none, some _ => throwE .otherWithoutMask
  | some _, other => do
    match other with
    | none => do
      -- other_ir is built from the ir undefined-value constant and, for block
      -- pointers, splatted; then the wrap reads the undefined name `other_it`
      if ptr.type.is_block then emit (.splatI shape)
      throwE .undefinedNameOtherIt
    | some _ => do
      emit .maskedLoadI
      return ⟨undefData shape, dst_ty⟩

/-- `atom_red_typechecking_impl` (semantic.py lines 710-727). -/
def atom_red_typechecking_impl (ptr val : blk) (mask : Option blk) :
    M (blk × blk × blk) := do
  if !ptr.type.scalar.is_ptr then throwE (.notPointer ptr.type)
  let mask ←
    match mask, ptr.type.is_block with
    | some m, true => do
      let m ← broadcast_impl_shape m ptr.type.shape
      pure (some m)
    | m, _ => pure m
  let val ←
    if ptr.type.is_block then broadcast_impl_shape val ptr.type.shape
    else pure val
  let val ← cast val ptr.type.scalar.element
  let mask ←
    match mask with
    | some m => pure m
    | none =>
      -- mask_ir = builder.get_int1(True), splat over block pointers
      if ptr.type.is_block then do
        emit (.splatI ptr.type.shape)
        pure (⟨List.replicate (numel ptr.type.shape) (sval.b true),
               ⟨dtype.int1, ptr.type.shape⟩⟩ : blk)
      else
        pure (⟨[sval.b true], ⟨dtype.int1, []⟩⟩ : blk)
  return (ptr, val, mask)

/-- `atomic_max` (semantic.py lines 730-759).  The float path reinterprets
pointer and value as 32-bit integers, masks the signed-MAX RMW with
`mask ∧ pos` and the unsigned-MIN RMW with `mask ∧ neg`, then recombines with
`where(pos, ...)`; its RMW results are raw handles, modelled as values of the
reinterpreted integer type. -/
def atomic_max (ptr val : blk) (mask : Option blk) : M blk := do
  let (ptr, val, mask) ← atom_red_typechecking_impl ptr val mask
  let sca_ty := val.type.scalar
  -- direct call to atomic_max for integers
  if sca_ty.is_int then
    if sca_ty.is_int_signed then do
      emit (.atomicRMWI .MAX mask.data)
      return ⟨undefData val.type.shape, val.type⟩
    else do
      emit (.atomicRMWI .UMAX mask.data)
      return ⟨undefData val.type.shape, val.type⟩
  else do
    -- for float: atomic_smax on the bits if val >= 0,
    --            atomic_umin on the bits if val < 0
    let i_val ← bitcast val dtype.int32
    let i_ptr ← bitcast ptr (pointer_type dtype.int32 1)
    let _ := i_ptr
    let pos ← greater_equal val ⟨[sval.f 0], ⟨sca_ty, []⟩⟩
    let neg ← less_than val ⟨[sval.f 0], ⟨sca_ty, []⟩⟩
    let mp ← and_ mask pos
    emit (.atomicRMWI .MAX mp.data)
    let pos_ret : blk := ⟨undefData i_val.type.shape, i_val.type⟩
    let mn ← and_ mask neg
    emit (.atomicRMWI .UMIN mn.data)
    let neg_ret : blk := ⟨undefData i_val.type.shape, i_val.type⟩
    where_ pos pos_ret neg_ret

/-- `reduce_impl` (semantic.py lines 883-895).  Integer inputs of width ≤ 32
are cast to `core.int32` — the signed 32-bit kind — before the
float-op/int-op dispatch, which tests the *original* scalar type. -/
def reduce_impl (input : blk) (axis : Nat) (FLOAT_OP INT_OP : ReduceOp) :
    M blk := do
  let scalar_ty := input.type.scalar
  -- input is extended to 32 bits if necessary
  let input ←
    if scalar_ty.is_int && scalar_ty.int_bitwidth ≤ 32 then
      cast input dtype.int32
    else pure input
  if scalar_ty.is_floating then do
    emit (.reduceI FLOAT_OP input.type axis)
    return ⟨undefData (input.type.shape.eraseIdx axis),
            ⟨input.type.scalar, input.type.shape.eraseIdx axis⟩⟩
  else if scalar_ty.is_int then do
    emit (.reduceI INT_OP input.type axis)
    return ⟨undefData (input.type.shape.eraseIdx axis),
            ⟨input.type.scalar, input.type.shape.eraseIdx axis⟩⟩
  else throwE .assertionError

/-- `min` (semantic.py lines 897-898). -/
def min (input : blk) (axis : Nat) : M blk :=
  reduce_impl input axis .FMIN .MIN

/-- `max` (semantic.py lines 900-901). -/
def max (input : blk) (axis : Nat) : M blk :=
  reduce_impl input axis .FMAX .MAX

/-- `sum` (semantic.py lines 903-904). -/
def sum (input : blk) (axis : Nat) : M blk :=
  reduce_impl input axis .FADD .ADD

/-- `xor_sum` (semantic.py lines 906-910). -/
def xor_sum (input : blk) (axis : Nat) : M blk := do
  let scalar_ty := input.type.scalar
  if !scalar_ty.is_int then throwE .xorSumOnNonInt
  else reduce_impl input axis .XOR .XOR

/-- A block of undefined elements with the given element kind and shape. -/
def mkBlock (d : dtype) (s : List Nat) : blk :=
  ⟨undefData s, ⟨d, s⟩⟩

/-- All pairs of non-boolean integer kinds with equal signedness. -/
def sameSignIntPairs : List (dtype × dtype) :=
  [dtype.int8, dtype.int16, dtype.int32, dtype.int64].product
      [dtype.int8, dtype.int16, dtype.int32, dtype.int64] ++
    [dtype.uint8, dtype.uint16, dtype.uint32, dtype.uint64].product
      [dtype.uint8, dtype.uint16, dtype.uint32, dtype.uint64]

/-- True when true-divide on `[128]`-shaped blocks of the two kinds succeeds
with element kind Float32 and the emitted divide comes last, both of its
operand types already Float32 (i.e. both operands were cast before it). -/
def c1Check (a b : dtype) : Bool :=
  match (truediv (mkBlock a [128]) (mkBlock b [128])).run [] with
  | .ok (r, tr) =>
    decide (r.type = ⟨dtype.fp32, [128]⟩) &&
      decide (tr.getLast? =
        some (.fdivI ⟨dtype.fp32, [128]⟩ ⟨dtype.fp32, [128]⟩))
  | .error _ => false

/-- Every scalar kind other than BFloat16 and Float32. -/
def c4Others : List dtype :=
  [dtype.fp16, dtype.fp64, dtype.int1, dtype.int8, dtype.int16, dtype.int32,
   dtype.int64, dtype.uint8, dtype.uint16, dtype.uint32, dtype.uint64,
   dtype.ptrTy dtype.fp32 1]

/-- True when a run aborted with the `NameError` for the undefined name
`case`. -/
def isCaseNameErr : Except Err (blk × List Instr) → Bool
  | .error .undefinedNameCase => true
  | _ => false

/-- True when both cast directions between BFloat16 and the given kind abort
with the `NameError` for `case`. -/
def c4Check (d : dtype) : Bool :=
  isCaseNameErr ((cast (mkBlock dtype.bf16 []) d).run []) &&
    isCaseNameErr ((cast (mkBlock d []) dtype.bf16).run [])

/-- The integer kinds of bit-width at most 32. -/
def c5IntKinds : List dtype :=
  [dtype.int1, dtype.int8, dtype.int16, dtype.int32, dtype.uint8,
   dtype.uint16, dtype.uint32]

/-- True when the run succeeded and its final instruction is a reduce with
the given opcode whose input operand already has the signed Int32 element
kind over shape `[4]`. -/
def lastIsInt32Reduce (r : Except Err (blk × List Instr)) (op : ReduceOp) :
    Bool :=
  match r with
  | .ok (_, tr) =>
    decide (tr.getLast? = some (.reduceI op ⟨dtype.int32, [4]⟩ 0))
  | .error _ => false

/-- True when all four reductions on a `[4]`-shaped block of the given kind
dispatch to the integer reduce opcode with the operand widened to signed
Int32. -/
def c5Check (d : dtype) : Bool :=
  lastIsInt32Reduce ((TritonSem.min (mkBlock d [4]) 0).run []) .MIN &&
    lastIsInt32Reduce ((TritonSem.max (mkBlock d [4]) 0).run []) .MAX &&
    lastIsInt32Reduce ((TritonSem.sum (mkBlock d [4]) 0).run []) .ADD &&
    lastIsInt32Reduce ((xor_sum (mkBlock d [4]) 0).run []) .XOR

/-- A `[2]`-shaped all-true boolean mask. -/
def allTrueMask2 : blk :=
  ⟨[sval.b true, sval.b true], ⟨dtype.int1, [2]⟩⟩

/-- A `[2]`-shaped Float32 fill value. -/
def fillF32 : blk :=
  ⟨[sval.f 0, sval.f 0], ⟨dtype.fp32, [2]⟩⟩

/-- A `[2]`-shaped Float32 block whose elements are −3.5. -/
def valNeg35 : blk :=
  ⟨[sval.f (Rat.divInt (-7) 2), sval.f (Rat.divInt (-7) 2)],
   ⟨dtype.fp32, [2]⟩⟩

/-!  Theorems settling the claims. -/

theorem integer_promote_comm (w1 w2 : Nat) (s1 s2 : Signedness) :
    integer_promote_impl (.intTy w1 s1) (.intTy w2 s2) =
      integer_promote_impl (.intTy w2 s2) (.intTy w1 s1) := by
  have key : ∀ s : Signedness,
      (if w1 > w2 then dtype.intTy w1 s else dtype.intTy w2 s) =
        (if w2 > w1 then dtype.intTy w2 s else dtype.intTy w1 s) := by
    intro s
    rcases Nat.lt_trichotomy w1 w2 with h | h | h
    · rw [if_neg (by omega), if_pos (by omega)]
    · subst h; simp
    · rw [if_pos (by omega), if_neg (by omega)]
  cases s1 <;> cases s2
  case signed.signed => exact key .signed
  case signed.unsigned => rfl
  case unsigned.signed => rfl
  case unsigned.unsigned => exact key .unsigned

/-- C1, counterexample: as stated the claim is false — true-divide on
`[128]`-shaped blocks of kinds Int8(signed) and UInt16 does not succeed with
Float32; `computation_type_impl` rejects the mixed-signedness integer pair
for divide, so the call aborts with the different-signedness error. -/
theorem c1_counterexample :
    (truediv (mkBlock dtype.int8 [128]) (mkBlock dtype.uint16 [128])).run [] =
      .error (.differentSignedness dtype.int8 dtype.uint16) := rfl

/-- C1, amended: for every int/int operand pair of *equal* signedness,
true-divide on `[128]`-shaped blocks succeeds with result element kind
Float32, and both operands are cast to Float32 before the divide is emitted
(the emitted divide is the final instruction and both its operand types are
Float32). -/
theorem c1_theorem : ∀ p ∈ sameSignIntPairs, c1Check p.1 p.2 = true := by
  decide

/-- C1, witness: the amended statement at the concrete pair
(Int8(signed), Int16(signed)). -/
theorem c1_witness : c1Check dtype.int8 dtype.int16 = true :=
  c1_theorem (dtype.int8, dtype.int16) (by decide)

/-- C2: `computation_type_impl` is commutative — for every pair of scalar
kinds and both values of the div-or-mod flag, swapping the operands yields
the same result kind, or failures of the same kind. -/
theorem c2_theorem (a b : dtype) (m : Bool) :
    sameOutcome (computation_type_impl a b m) (computation_type_impl b a m) := by
  cases a <;> cases b <;> try (cases m <;> rfl)
  rename_i w1 s1 w2 s2
  cases m
  case false => exact integer_promote_comm w1 w2 s1 s2
  case true =>
    cases s1 <;> cases s2
    case signed.signed => exact integer_promote_comm w1 w2 .signed .signed
    case signed.unsigned => rfl
    case unsigned.signed => rfl
    case unsigned.unsigned => exact integer_promote_comm w1 w2 .unsigned .unsigned

/-- C3: remainder between rank-0 values of kinds Int32(signed) and UInt32
aborts with the different-signedness error (raised by the computation-type
resolution), while remainder between Int32(signed) and Int16(signed)
promotes the right operand to Int32(signed) and succeeds, emitting the
signed integer remainder instruction with an Int32(signed) result. -/
theorem c3_theorem :
    (mod (mkBlock dtype.int32 []) (mkBlock dtype.uint32 [])).run [] =
        .error (.differentSignedness dtype.int32 dtype.uint32) ∧
      (mod (mkBlock dtype.int32 []) (mkBlock dtype.int16 [])).run [] =
        .ok (mkBlock dtype.int32 [],
          [.intCastI ⟨dtype.int32, []⟩ true, .sremI]) :=
  ⟨rfl, rfl⟩

/-- C4: for every kind other than BFloat16 and Float32, casting from
BFloat16 to it and from it to BFloat16 aborts with the `NameError` for the
undefined name `case` (semantic.py line 526 calls `case` where the two-step
conversion through Float32 was intended), instead of returning a value. -/
theorem c4_theorem : ∀ d ∈ c4Others, c4Check d = true := by
  decide

/-- C4, witness: the failing cast at the concrete destination kind
Int32(signed). -/
theorem c4_witness : c4Check dtype.int32 = true :=
  c4_theorem dtype.int32 (by decide)

/-- C5, counterexample: as stated the claim is false — reducing (min) a
`[4]`-shaped UInt16 block widens the operand with a cast to `core.int32`,
the *signed* 32-bit kind, whose signedness differs from the unsigned
operand's, rather than to an unsigned 32-bit kind. -/
theorem c5_counterexample :
    (TritonSem.min (mkBlock dtype.uint16 [4]) 0).run [] =
        .ok (mkBlock dtype.int32 [],
          [.intCastI ⟨dtype.int32, [4]⟩ false,
           .reduceI .MIN ⟨dtype.int32, [4]⟩ 0]) ∧
      dtype.int32.int_signedness ≠ dtype.uint16.int_signedness :=
  ⟨rfl, by decide⟩

/-- C5, amended: in every reduction (min/max/sum/xor_sum), an integer
operand of bit-width ≤ 32 is first widened to the *signed* 32-bit integer
kind Int32 regardless of the operand's own signedness, and the widening is
applied before the float-op/int-op dispatch (the dispatched reduce
instruction's input type is already Int32). -/
theorem c5_theorem : ∀ d ∈ c5IntKinds, c5Check d = true := by
  decide

/-- C5, witness: the amended statement at the concrete kind UInt16. -/
theorem c5_witness : c5Check dtype.uint16 = true :=
  c5_theorem dtype.uint16 (by decide)

/-- C6: on a valid `[2]`-shaped Float32 pointer block, load with neither
mask nor fill emits exactly one non-masked load; load with fill and no mask
aborts with the fill-without-mask `ValueError`; but load with mask and no
fill aborts with the `NameError` for the undefined name `other_it`
(semantic.py line 666, a typo for `other_ir`) instead of emitting a masked
load, contradicting the claim's middle case. -/
theorem c6_theorem :
    (load (mkBlock (dtype.ptrTy dtype.fp32 1) [2]) none none none none
          false).run [] =
        .ok (mkBlock dtype.fp32 [2], [.loadI]) ∧
      (load (mkBlock (dtype.ptrTy dtype.fp32 1) [2]) (some allTrueMask2) none
          none none false).run [] =
        .error .undefinedNameOtherIt ∧
      (load (mkBlock (dtype.ptrTy dtype.fp32 1) [2]) none (some fillF32) none
          none false).run [] =
        .error .otherWithoutMask :=
  ⟨rfl, rfl, rfl⟩

/-- C7: floating-point atomic max at value −3.5 under an all-true mask does
compute `pos = (value ≥ 0)` as all-false and `mask ∧ pos` as all-false (first
two conjuncts), but the whole call aborts with
`IncompatibleTypeError(int1, fp32)` (third conjunct): `less_than` annotates
its comparison result with the float operand's type (semantic.py line 352),
so `and_(mask, neg)` rejects it as a non-integer operand before the
unsigned-min RMW or the final select can be emitted. -/
theorem c7_theorem :
    (greater_equal valNeg35 ⟨[sval.f 0], ⟨dtype.fp32, []⟩⟩).run [] =
        .ok (⟨[sval.b false, sval.b false], ⟨dtype.int1, [2]⟩⟩,
          [.splatI [2], .fcmpOGEI]) ∧
      (and_ allTrueMask2
          ⟨[sval.b false, sval.b false], ⟨dtype.int1, [2]⟩⟩).run [] =
        .ok (⟨[sval.b false, sval.b false], ⟨dtype.int1, [2]⟩⟩, [.andI]) ∧
      (atomic_max (mkBlock (dtype.ptrTy dtype.fp32 1) [2]) valNeg35
          (some allTrueMask2)).run [] =
        .error (.incompatibleType dtype.int1 dtype.fp32) :=
  ⟨rfl, rfl, rfl⟩

/-- C8: add of a `[2]`-shaped Float32-pointer block and an Int32 offset
block succeeds with the pointer-to-Float32 result type; with the operands
given in the other order it also succeeds with the same result type (the
pointer is swapped to the left before lowering); add of a Float32 pointer
and an Int32 pointer aborts with `IncompatibleTypeError`.  The traces show
the emitted opcode: the pointer-on-the-left case lowers to the
address-offset instruction, the swapped case to an integer add (the source
reads the pre-swap scalar types when dispatching). -/
theorem c8_theorem :
    (add (mkBlock (dtype.ptrTy dtype.fp32 1) [2])
          (mkBlock dtype.int32 [2])).run [] =
        .ok (mkBlock (dtype.ptrTy dtype.fp32 1) [2], [.gepI]) ∧
      (add (mkBlock dtype.int32 [2])
          (mkBlock (dtype.ptrTy dtype.fp32 1) [2])).run [] =
        .ok (mkBlock (dtype.ptrTy dtype.fp32 1) [2], [.iaddI]) ∧
      (add (mkBlock (dtype.ptrTy dtype.fp32 1) [2])
          (mkBlock (dtype.ptrTy dtype.int32 1) [2])).run [] =
        .error (.incompatibleType (dtype.ptrTy dtype.fp32 1)
          (dtype.ptrTy dtype.int32 1)) :=
  ⟨rfl, rfl, rfl⟩

/-- C9: shape resolution takes, per axis, the other side when either side is
1 and the common value when both sides agree — `[1,5]` with `[3,1]` resolves
to `[3,5]` and `[3,5]` with `[3,5]` to `[3,5]`; `[2]` with `[3]` fails with
the shape error naming axis 0 and sizes 2 and 3; and shapes of unequal rank
always fail with the rank error. -/
theorem c9_theorem :
    shape_compatible [1, 5] [3, 1] = .ok [3, 5] ∧
      shape_compatible [3, 5] [3, 5] = .ok [3, 5] ∧
      shape_compatible [2] [3] = .error (.incompatibleDims 0 2 3) ∧
      ∀ a b : List Nat, a.length ≠ b.length →
        shape_compatible a b = .error .rankMismatch :=
  ⟨rfl, rfl, rfl, fun _ _ h => by simp [shape_compatible, h]⟩

/-- C9, witness: the unequal-rank clause at the concrete shapes `[1,2]` and
`[3]`. -/
theorem c9_witness : shape_compatible [1, 2] [3] = .error .rankMismatch :=
  c9_theorem.2.2.2 [1, 2] [3] (by decide)

/-- C10: when `broadcast_impl_value` receives one `[2,3]`-shaped block
operand and one rank-0 scalar operand, the splatted scalar is returned with
the block operand's *full* block type — element kind `a` included — for
every pair of element kinds `a`, `b` and every scalar payload `v`: the
scalar operand's own element kind `b` is replaced rather than preserved. -/
theorem c10_theorem (a b : dtype) (v : sval) :
    (broadcast_impl_value (mkBlock a [2, 3]) ⟨[v], ⟨b, []⟩⟩).run [] =
        .ok ((mkBlock a [2, 3], ⟨List.replicate 6 v, ⟨a, [2, 3]⟩⟩),
          [.splatI [2, 3]]) ∧
      (broadcast_impl_value ⟨[v], ⟨b, []⟩⟩ (mkBlock a [2, 3])).run [] =
        .ok ((⟨List.replicate 6 v, ⟨a, [2, 3]⟩⟩, mkBlock a [2, 3]),
          [.splatI [2, 3]]) :=
  ⟨rfl, rfl⟩

end TritonSem
